/-
Verification of the blackbird streaming backend gateway: the protocol
parsers, the backend selector, and the concurrent stream registry,
shallowly embedded from src/ai/mod.rs, src/ai/ollama.rs,
src/ai/blackbird.rs and src/ai/custom.rs.

Strings are modelled by Lean's `String` (a list of unicode scalar
values, matching Rust's `String` contents); `u64` counters are `Nat`
values reduced modulo `2 ^ 64` where the source's arithmetic wraps;
fallible operations return `Except` / `Option`; the global mutable
registry becomes explicit state passing on a `StreamStore` value, and
network responses are passed in as explicit values.
-/
import Mathlib

set_option maxRecDepth 4000

/-- JSON values: the model of serde_json's value space. Numbers keep
their lexeme, since no decoder in this code base inspects a numeric
value. -/
inductive JVal where
  | jstr (text : String)
  | jnum (lexeme : String)
  | jbool (b : Bool)
  | jnull
  | jarr (items : List JVal)
  | jobj (members : List (String × JVal))
deriving Inhabited

/-- JSON insignificant whitespace (RFC 8259: space, tab, newline,
carriage return). -/
def isJsonWs (c : Char) : Bool :=
  c == '\x20' || c == '\x09' || c == '\x0a' || c == '\x0d'

def skipWs (cs : List Char) : List Char :=
  cs.dropWhile isJsonWs

/-- Value of one hexadecimal digit of a `\u` escape. -/
def hexDigit (c : Char) : Option Nat :=
  let n := c.toNat
  if 48 ≤ n ∧ n ≤ 57 then some (n - 48)
  else if 97 ≤ n ∧ n ≤ 102 then some (n - 87)
  else if 65 ≤ n ∧ n ≤ 70 then some (n - 55)
  else none

/-- The single-letter JSON escapes and the characters they denote. -/
def escPairs : List (Char × Char) :=
  [('"', '"'), ('\\', '\\'), ('/', '/'), ('b', Char.ofNat 8), ('f', Char.ofNat 12),
   ('n', '\n'), ('r', '\r'), ('t', '\t')]

/-- The character denoted by a single-letter JSON escape. -/
def escMap (c : Char) : Option Char :=
  (escPairs.find? (fun p => p.1 == c)).map (fun p => p.2)

/-- Body of a JSON string literal, after the opening quote; returns the
decoded string and the remaining input. Raw control characters and
invalid escapes are rejected, as serde_json rejects them. -/
def strBody (acc : List Char) : List Char → Option (String × List Char)
  | [] => none
  | '\\' :: esc =>
    match esc with
    | 'u' :: d1 :: d2 :: d3 :: d4 :: tail =>
      match hexDigit d1, hexDigit d2, hexDigit d3, hexDigit d4 with
      | some n1, some n2, some n3, some n4 =>
        let code := n1 * 4096 + n2 * 256 + n3 * 16 + n4
        if code.isValidChar then strBody (Char.ofNat code :: acc) tail else none
      | _, _, _, _ => none
    | e :: tail =>
      match escMap e with
      | some decoded => strBody (decoded :: acc) tail
      | none => none
    | [] => none
  | c :: tail =>
    if c == '"' then some (⟨acc.reverse⟩, tail)
    else if c.toNat < 32 then none
    else strBody (c :: acc) tail

/-- Characters that may occur in a JSON number lexeme. -/
def isNumChar (c : Char) : Bool :=
  c.isDigit || c == '-' || c == '+' || c == '.' || c == 'e' || c == 'E'

def lexNum (cs : List Char) : String × List Char :=
  (⟨cs.takeWhile isNumChar⟩, cs.dropWhile isNumChar)

/-- Consume the tail of a keyword literal (`true`, `false`, `null`). -/
def litTail : List Char → List Char → Option (List Char)
  | [], remaining => some remaining
  | want :: more, c :: remaining =>
    if c == want then litTail more remaining else none
  | _ :: _, [] => none

mutual

/-- Fuel-indexed JSON value parser: the model of serde_json's grammar.
Returns the parsed value and the unconsumed input. -/
def jsonVal : Nat → List Char → Option (JVal × List Char)
  | 0, _ => none
  | fuel + 1, input =>
    match skipWs input with
    | [] => none
    | lead :: body =>
      if lead == '"' then (strBody [] body).map (fun p => (.jstr p.1, p.2))
      else if lead == '\x7b' then jsonObjTail fuel body []
      else if lead == '[' then jsonArrTail fuel body []
      else if lead == 't' then (litTail ['r', 'u', 'e'] body).map (fun r => (.jbool true, r))
      else if lead == 'f' then (litTail ['a', 'l', 's', 'e'] body).map (fun r => (.jbool false, r))
      else if lead == 'n' then (litTail ['u', 'l', 'l'] body).map (fun r => (.jnull, r))
      else if lead.isDigit || lead == '-' then
        let p := lexNum (lead :: body)
        some (.jnum p.1, p.2)
      else none

/-- Items of a JSON array, after the opening bracket (or a comma);
`seen` holds the items read so far, reversed. -/
def jsonArrTail : Nat → List Char → List JVal → Option (JVal × List Char)
  | 0, _, _ => none
  | fuel + 1, cs, seen =>
    match skipWs cs with
    | ']' :: tail => if seen.isEmpty then some (.jarr [], tail) else none
    | _ => do
      let (v, cs1) ← jsonVal fuel cs
      match skipWs cs1 with
      | ',' :: tail => jsonArrTail fuel tail (v :: seen)
      | ']' :: tail => some (.jarr (v :: seen).reverse, tail)
      | _ => none

/-- Members of a JSON object, after the opening brace (or a comma);
`seen` holds the members read so far, reversed. -/
def jsonObjTail : Nat → List Char → List (String × JVal) → Option (JVal × List Char)
  | 0, _, _ => none
  | fuel + 1, cs, seen =>
    match skipWs cs with
    | '\x7d' :: tail => if seen.isEmpty then some (.jobj [], tail) else none
    | '"' :: tail => do
      let (key, cs1) ← strBody [] tail
      match skipWs cs1 with
      | ':' :: cs2 => do
        let (v, cs3) ← jsonVal fuel cs2
        match skipWs cs3 with
        | ',' :: cs4 => jsonObjTail fuel cs4 ((key, v) :: seen)
        | '\x7d' :: cs4 => some (.jobj ((key, v) :: seen).reverse, cs4)
        | _ => none
      | _ => none
    | _ => none

end

/-- Parse a complete JSON document (one value, possibly surrounded by
whitespace): the model of `serde_json::from_str`'s syntactic layer. -/
def jsonParse (s : String) : Option JVal :=
  let cs := s.data
  match jsonVal (2 * cs.length + 2) cs with
  | some (v, tail) => if skipWs tail = [] then some v else none
  | none => none

/-- ASCII whitespace, the fragment of Rust's `char::is_whitespace`
(Unicode `White_Space`) exercised by this code base; non-ASCII
whitespace code points do not occur in its wire formats. -/
def isRustWs (c : Char) : Bool :=
  c == ' ' || c == '\t' || c == '\n' || c == '\x0b' || c == '\x0c' || c == '\r'

/-- Model of Rust's `str::trim`: strip leading and trailing whitespace. -/
def rustTrim (s : String) : String :=
  ⟨((s.data.dropWhile isRustWs).reverse.dropWhile isRustWs).reverse⟩

/-- First binding of a key in a JSON object's member list (serde's
deserializer reads members in order; duplicate keys do not occur in the
inputs this code base handles). -/
def jLookup (fields : List (String × JVal)) (key : String) : Option JVal :=
  (fields.find? (fun kv => kv.1 == key)).map (fun kv => kv.2)

/-- Decode a `String`-typed serde field value. -/
def decodeStr : JVal → Option String
  | .jstr s => some s
  | _ => none

/-- Decode a `bool`-typed serde field value. -/
def decodeBool : JVal → Option Bool
  | .jbool b => some b
  | _ => none

/-- Decode an `Option<T>`-typed serde struct field: an absent or null
member is `none`; a present member must decode, else the whole struct
fails to decode. The outer `Option` is decode success, the inner one is
the Rust `Option` value. -/
def decodeOptField (fields : List (String × JVal)) (key : String)
    (dec : JVal → Option α) : Option (Option α) :=
  match jLookup fields key with
  | none => some none
  | some .jnull => some none
  | some v => (dec v).map some

/-- `StreamChunkMessage` from src/ai/ollama.rs: `{ content: String }`. -/
structure StreamChunkMessage where
  content : String
deriving DecidableEq

/-- `StreamChunk` from src/ai/ollama.rs:
`{ message: Option<StreamChunkMessage>, done: Option<bool> }`. -/
structure StreamChunk where
  message : Option StreamChunkMessage
  done : Option Bool
deriving DecidableEq

def decodeStreamChunkMessage : JVal → Option StreamChunkMessage
  | .jobj fields => ((jLookup fields "content").bind decodeStr).map (fun c => ⟨c⟩)
  | _ => none

def decodeStreamChunk : JVal → Option StreamChunk
  | .jobj fields => do
    let m ← decodeOptField fields "message" decodeStreamChunkMessage
    let d ← decodeOptField fields "done" decodeBool
    some ⟨m, d⟩
  | _ => none

/-- One trimmed-or-raw JSONL line, as fed by the Ollama byte-stream
loop; `serde_json::from_str::<StreamChunk>` is `jsonParse` followed by
`decodeStreamChunk`. Embeds `parse_ollama_stream_line` from
src/ai/ollama.rs. -/
def parse_ollama_stream_line (line_with_ws : String) : Option (String × Bool) :=
  let line := rustTrim line_with_ws
  if line.data.isEmpty then none
  else
    match (jsonParse line).bind decodeStreamChunk with
    | some parsed =>
      let piece := match parsed.message with
        | some msg => msg.content
        | none => ""
      some (piece, parsed.done.getD false)
    | none => none

/-- `OAIDelta` from src/ai/blackbird.rs: `{ content: Option<String> }`. -/
structure OAIDelta where
  content : Option String
deriving DecidableEq

/-- `BBMessage` from src/ai/blackbird.rs: `{ content: String }`. -/
structure BBMessage where
  content : String
deriving DecidableEq

/-- `BBChoice` from src/ai/blackbird.rs:
`{ message: Option<BBMessage>, delta: Option<OAIDelta> }`. -/
structure BBChoice where
  message : Option BBMessage
  delta : Option OAIDelta
deriving DecidableEq

/-- `BBResponseOpenAIShape` from src/ai/blackbird.rs:
`{ choices: Vec<BBChoice> }`. -/
structure BBResponseOpenAIShape where
  choices : List BBChoice
deriving DecidableEq

/-- `BBResponseContentOnly` from src/ai/blackbird.rs:
`{ content: String }`. -/
structure BBResponseContentOnly where
  content : String
deriving DecidableEq

def decodeOAIDelta : JVal → Option OAIDelta
  | .jobj fields => (decodeOptField fields "content" decodeStr).map (fun c => ⟨c⟩)
  | _ => none

def decodeBBMessage : JVal → Option BBMessage
  | .jobj fields => ((jLookup fields "content").bind decodeStr).map (fun c => ⟨c⟩)
  | _ => none

def decodeBBChoice : JVal → Option BBChoice
  | .jobj fields => do
    let m ← decodeOptField fields "message" decodeBBMessage
    let d ← decodeOptField fields "delta" decodeOAIDelta
    some ⟨m, d⟩
  | _ => none

def decodeBBResponseOpenAIShape : JVal → Option BBResponseOpenAIShape
  | .jobj fields =>
    match jLookup fields "choices" with
    | some (.jarr elems) => (elems.mapM decodeBBChoice).map (fun cs => ⟨cs⟩)
    | _ => none
  | _ => none

def decodeBBResponseContentOnly : JVal → Option BBResponseContentOnly
  | .jobj fields => ((jLookup fields "content").bind decodeStr).map (fun c => ⟨c⟩)
  | _ => none

/-- The concatenated `data:` payload for one SSE event. Embeds
`parse_blackbird_sse_data` from src/ai/blackbird.rs: `[DONE]` ends the
stream, then the OpenAI-delta, OpenAI-message and flat-content shapes
are tried in that order; a payload decoding as the OpenAI top-level
shape but with no usable choice yields an empty non-final delta, and
anything else yields no output. -/
def parse_blackbird_sse_data (data : String) : Option (String × Bool) :=
  let trimmed := rustTrim data
  if trimmed.data.isEmpty then none
  else if trimmed == "[DONE]" then some ("", true)
  else
    match (jsonParse trimmed).bind decodeBBResponseOpenAIShape with
    | some parsed =>
      match parsed.choices with
      | [] => some ("", false)
      | first :: _ =>
        match (first.delta.bind OAIDelta.content) with
        | some piece => some (piece, false)
        | none =>
          match first.message with
          | some msg => some (msg.content, false)
          | none => some ("", false)
    | none =>
      match (jsonParse trimmed).bind decodeBBResponseContentOnly with
      | some parsed => some (parsed.content, false)
      | none => none

instance {ε α : Type} [DecidableEq ε] [DecidableEq α] : DecidableEq (Except ε α) := fun x y =>
  match x, y with
  | .ok a, .ok b => decidable_of_iff (a = b) (by simp)
  | .error e, .error f => decidable_of_iff (e = f) (by simp)
  | .ok _, .error _ => isFalse (by simp)
  | .error _, .ok _ => isFalse (by simp)

/-- `ChatError` from src/ai/mod.rs: a newtype over the error message. -/
structure ChatError where
  message : String
deriving DecidableEq

def ChatError.new (message : String) : ChatError := ⟨message⟩

/-- `Role` from src/types.rs. -/
inductive Role where
  | user
  | assistant
deriving DecidableEq

/-- `ChatMessage` from src/types.rs; the `created_at` and `tags` fields
are `#[serde(skip)]` local-only annotations never read by the gateway
and are omitted. -/
structure ChatMessage where
  role : Role
  content : String
deriving DecidableEq

/-- The environment variables read by the backend selector and the
backend constructors (`std::env::var` results: `some` when the variable
is set). -/
structure Env where
  llmEndpoint : Option String
  llmUseOllama : Option String
  llmModel : Option String
  blackbirdEndpoint : Option String
  blackbirdTier : Option String
  blackbirdModel : Option String
  blackbirdApiKey : Option String
deriving DecidableEq

/-- Model of `str::to_ascii_lowercase` (Lean's `Char.toLower` lowers
exactly the ASCII range, like Rust's `to_ascii_lowercase`). -/
def asciiLowercase (s : String) : String :=
  ⟨s.data.map Char.toLower⟩

/-- The resolved backend: `CustomBackend::new(endpoint)` (direct HTTP),
`OllamaBackend::from_env()` (local model) or
`BlackbirdBackend::from_env(endpoint)` (hosted service), with the
fields each constructor reads from the environment. -/
inductive Backend where
  | custom (endpoint : String)
  | ollama (model : String) (endpoint : String)
  | blackbird (endpoint : String) (tier : String) (model : String) (apiKey : Option String)
deriving DecidableEq

def OLLAMA_DEFAULT_MODEL : String := "gpt-oss:20b"

def OLLAMA_DEFAULT_ENDPOINT : String := "http://127.0.0.1:11434/api/chat"

def BLACKBIRD_DEFAULT_TIER : String := "ultra"

def BLACKBIRD_DEFAULT_MODEL : String := "gpt-oss-120b"

def NO_LLM_CONFIGURED_MSG : String :=
  "No LLM configured. Set LLM_ENDPOINT for a custom backend, BLACKBIRD_ENDPOINT for Blackbird, or LLM_USE_OLLAMA=true for local Ollama."

/-- The `matches!(use_ollama.as_str(), "1" | "true" | "yes" | "on")`
test on the lowercased `LLM_USE_OLLAMA` value. -/
def ollamaOptIn (env : Env) : Bool :=
  let use_ollama := asciiLowercase (env.llmUseOllama.getD "false")
  use_ollama == "1" || use_ollama == "true" || use_ollama == "yes" || use_ollama == "on"

/-- `select_backend` from src/ai/mod.rs: first-match resolution over
`LLM_ENDPOINT`, then the `LLM_USE_OLLAMA` opt-in flag, then
`BLACKBIRD_ENDPOINT`. -/
def select_backend (env : Env) : Except ChatError Backend :=
  match env.llmEndpoint with
  | some endpoint => .ok (.custom endpoint)
  | none =>
    if ollamaOptIn env then
      .ok (.ollama (env.llmModel.getD OLLAMA_DEFAULT_MODEL) OLLAMA_DEFAULT_ENDPOINT)
    else
      match env.blackbirdEndpoint with
      | some endpoint =>
        .ok (.blackbird endpoint (env.blackbirdTier.getD BLACKBIRD_DEFAULT_TIER)
          (env.blackbirdModel.getD BLACKBIRD_DEFAULT_MODEL) env.blackbirdApiKey)
      | none => .error (ChatError.new NO_LLM_CONFIGURED_MSG)

/-- `chat_reply` from src/ai/mod.rs: select a backend and call its
`complete`. The network-dependent `complete` of the selected backend is
passed in as an oracle. -/
def chat_reply (env : Env)
    (complete : Backend → List ChatMessage → Except ChatError String)
    (messages : List ChatMessage) : Except ChatError String :=
  match select_backend env with
  | .error e => .error e
  | .ok backend => complete backend messages

/-- An HTTP response as the backends observe it: numeric status code
and body text. -/
structure HttpResponse where
  status : Nat
  body : String
deriving DecidableEq

/-- `StatusCode::is_success`: 2xx. -/
def statusIsSuccess (status : Nat) : Bool :=
  200 ≤ status && status < 300

/-- The `Display` rendering of a status code as used in the backends'
`format!` strings; `http::StatusCode` renders the three-digit code
(followed by the canonical reason phrase, which no property here
depends on). -/
def statusDisplay (status : Nat) : String :=
  toString status

/-- `ChatResponse` from src/ai/custom.rs: `{ content: String }`. -/
structure ChatResponse where
  content : String
deriving DecidableEq

def decodeChatResponse : JVal → Option ChatResponse
  | .jobj fields => ((jLookup fields "content").bind decodeStr).map (fun c => ⟨c⟩)
  | _ => none

/-- `CustomBackend::complete` from src/ai/custom.rs, given the provider
response: on 2xx parse `{content}` and fall back to the raw body; on
non-2xx fail with the status and body. -/
def custom_complete (resp : HttpResponse) : Except ChatError String :=
  if statusIsSuccess resp.status then
    match (jsonParse resp.body).bind decodeChatResponse with
    | some data => .ok data.content
    | none => .ok resp.body
  else
    .error (ChatError.new ("LLM endpoint error " ++ statusDisplay resp.status ++ ": " ++ resp.body))

/-- `StreamEntry` from src/ai/mod.rs. -/
structure StreamEntry where
  buffer : String
  done : Bool
deriving DecidableEq

/-- `StreamEntry::default()`: empty buffer, not done. -/
def StreamEntry.init : StreamEntry := ⟨"", false⟩

def U64_MOD : Nat := 2 ^ 64

/-- `StreamStore` from src/ai/mod.rs: the `AtomicU64` id counter and
the id-to-entry map, with the map as a function (`HashMap::get` is
application, `insert`/`get_mut` are pointwise update). -/
structure StreamStore where
  counter : Nat
  entries : Nat → Option StreamEntry

/-- `StreamStore::default()`: counter starts at 1, no entries. -/
def StreamStore.init : StreamStore := ⟨1, fun _ => none⟩

/-- `entries.get_mut(&id)` followed by a mutation: update the entry at
`id` when present, leave the map unchanged otherwise. -/
def updateEntry (m : Nat → Option StreamEntry) (id : Nat)
    (f : StreamEntry → StreamEntry) : Nat → Option StreamEntry :=
  fun k => if k = id then (m k).map f else m k

/-- `StreamStore::create_handle`: `fetch_add(1)` on the wrapping u64
counter returns the previous value as the new id, and a default entry
is inserted under it. -/
def StreamStore.create_handle (s : StreamStore) : StreamStore × Nat :=
  let id := s.counter
  (⟨(s.counter + 1) % U64_MOD,
    fun k => if k = id then some StreamEntry.init else s.entries k⟩, id)

/-- `StreamStore::append`. -/
def StreamStore.append (s : StreamStore) (id : Nat) (chunk : String) : StreamStore :=
  ⟨s.counter, updateEntry s.entries id (fun e => ⟨e.buffer ++ chunk, e.done⟩)⟩

/-- `StreamStore::replace`. -/
def StreamStore.replace (s : StreamStore) (id : Nat) (content : String) : StreamStore :=
  ⟨s.counter, updateEntry s.entries id (fun e => ⟨content, e.done⟩)⟩

/-- `StreamStore::finish`. -/
def StreamStore.finish (s : StreamStore) (id : Nat) : StreamStore :=
  ⟨s.counter, updateEntry s.entries id (fun e => ⟨e.buffer, true⟩)⟩

/-- `StreamStore::fail`: replace the buffer with the message and mark
done. -/
def StreamStore.fail (s : StreamStore) (id : Nat) (message : String) : StreamStore :=
  ⟨s.counter, updateEntry s.entries id (fun _ => ⟨message, true⟩)⟩

/-- `StreamStore::snapshot`. -/
def StreamStore.snapshot (s : StreamStore) (id : Nat) : Except ChatError (String × Bool) :=
  match s.entries id with
  | some entry => .ok (entry.buffer, entry.done)
  | none => .error (ChatError.new "invalid stream id")

/-- `StreamHandle::fail` from src/ai/mod.rs: prefix the error with
`"error: "` (the `format!("error: {}", err)` rendering) and delegate to
the store. -/
def handle_fail (s : StreamStore) (id : Nat) (err : ChatError) : StreamStore :=
  s.fail id ("error: " ++ err.message)

/-- `chat_reply_stream_poll` from src/ai/mod.rs. -/
def chat_reply_stream_poll (s : StreamStore) (id : Nat) : Except ChatError (String × Bool) :=
  s.snapshot id

/-- The synchronous part of `chat_reply_stream_start` from
src/ai/mod.rs, returning the caller-visible result, the store after it
returns, and the spawned background task (backend and bound stream id),
`none` when nothing was spawned. -/
def chat_reply_stream_start (env : Env) (s : StreamStore) :
    Except ChatError Nat × StreamStore × Option (Backend × Nat) :=
  match select_backend env with
  | .error e => (.error e, s, none)
  | .ok backend =>
    let (s1, id) := s.create_handle
    (.ok id, s1, some (backend, id))

/-- The tail of the spawned task in `chat_reply_stream_start`: after
the backend's `stream` call returns `result`, `finish` the entry on
success and `fail` it through the handle on error. -/
def stream_task_finalize (id : Nat) (result : Except ChatError Unit)
    (s : StreamStore) : StreamStore :=
  match result with
  | .ok _ => s.finish id
  | .error err => handle_fail s id err

/-- The `LLMBackend::stream` default body (also the literal body of
`CustomBackend::stream`): call `complete` — whose network-dependent
result is passed in — propagate its error, otherwise `replace` the
entry with the entire response as one delta. Returns the stream call's
result and the store it leaves behind. -/
def default_stream (completeResult : Except ChatError String) (id : Nat)
    (s : StreamStore) : Except ChatError Unit × StreamStore :=
  match completeResult with
  | .ok response => (.ok (), s.replace id response)
  | .error e => (.error e, s)

/-- The mutating registry operations of src/ai/mod.rs, as invoked
through `create_handle` and the `StreamHandle` sink; `snapshot` is pure
and needs no operation. -/
inductive Op where
  | create
  | append (id : Nat) (chunk : String)
  | replace (id : Nat) (content : String)
  | finish (id : Nat)
  | fail (id : Nat) (message : String)

/-- Effect of one registry operation on the store. -/
def applyOp (s : StreamStore) : Op → StreamStore
  | .create => s.create_handle.1
  | .append id chunk => s.append id chunk
  | .replace id content => s.replace id content
  | .finish id => s.finish id
  | .fail id message => s.fail id message

/-- Run a sequence of registry operations left to right. -/
def runOps (s : StreamStore) : List Op → StreamStore
  | [] => s
  | op :: rest => runOps (applyOp s op) rest

/-- The stream ids handed out by the `create` operations of a
sequence, in call order. -/
def issuedIds (s : StreamStore) : List Op → List Nat
  | [] => []
  | op :: rest =>
    match op with
    | .create => s.create_handle.2 :: issuedIds (applyOp s op) rest
    | _ => issuedIds (applyOp s op) rest

/-- The ids returned by `n` consecutive `create_handle` calls on the
freshly initialized store. -/
def createIds (n : Nat) : List Nat :=
  issuedIds StreamStore.init (List.replicate n Op.create)

/-- Per-stream lifecycle phase of the gateway's state machine:
`Created/Streaming` is `active`, `Done/Failed` is `terminal`, ids not
yet issued are `idle`. -/
inductive Phase where
  | idle
  | active
  | terminal
deriving DecidableEq

/-- The operations the gateway's stream lifecycle can issue in a given
phase assignment: a task only appends to, replaces, finishes or fails
its own live entry, and `create` hands out an id not currently in use. -/
def opPhaseOk (ph : Nat → Phase) (s : StreamStore) : Op → Prop
  | .create => ph s.counter = .idle
  | .append id _ => ph id = .active
  | .replace id _ => ph id = .active
  | .finish id => ph id = .active
  | .fail id _ => ph id = .active

/-- Phase assignment after one lifecycle operation. -/
def phaseAfter (ph : Nat → Phase) (s : StreamStore) : Op → (Nat → Phase)
  | .create => fun k => if k = s.counter then .active else ph k
  | .finish id => fun k => if k = id then .terminal else ph k
  | .fail id _ => fun k => if k = id then .terminal else ph k
  | .append _ _ => ph
  | .replace _ _ => ph

/-- Operation sequences reachable through the gateway's stream
lifecycle from phase assignment `ph` and store `s`: every operation is
legal for the current phases (`Created → Streaming → {Done | Failed}`,
no transition out of a terminal state). -/
def GatewayTrace : (Nat → Phase) → StreamStore → List Op → Prop
  | _, _, [] => True
  | ph, s, op :: rest =>
    opPhaseOk ph s op ∧ GatewayTrace (phaseAfter ph s op) (applyOp s op) rest

/-- A phase assignment describes a store: idle ids have no entry,
active ids an entry with `done = false`, terminal ids an entry with
`done = true`. -/
def PhasesAgree (ph : Nat → Phase) (s : StreamStore) : Prop :=
  ∀ id, (ph id = .idle → s.entries id = none)
    ∧ (ph id = .active → ∃ e, s.entries id = some e ∧ e.done = false)
    ∧ (ph id = .terminal → ∃ e, s.entries id = some e ∧ e.done = true)

/-- `pat` occurs as a substring of `s`. -/
def strContains (s pat : String) : Prop :=
  ∃ a b : String, s = a ++ pat ++ b

theorem jsonParse_of_data_nil (s : String) (h : s.data = []) : jsonParse s = none := by
  unfold jsonParse
  rw [h]
  rfl

/-- C2: the JSONL line parser returns no output on a trimmed-empty
line or a line that does not decode as a `StreamChunk`; on a successful
decode it returns the message content (empty when the `message` field
is absent) and the `done` flag (false when absent); on the three
documented JSONL records the deltas concatenate to "Hello world" and
exactly the last record is final. -/
theorem c2_jsonl_line_parsing :
    (∀ line : String, (rustTrim line).data.isEmpty = true →
      parse_ollama_stream_line line = none)
    ∧ (∀ line : String, (jsonParse (rustTrim line)).bind decodeStreamChunk = none →
      parse_ollama_stream_line line = none)
    ∧ (∀ (line : String) (c : StreamChunk),
      (jsonParse (rustTrim line)).bind decodeStreamChunk = some c →
      parse_ollama_stream_line line =
        some ((c.message.map StreamChunkMessage.content).getD "", c.done.getD false))
    ∧ parse_ollama_stream_line "\x7b\"message\":\x7b\"content\":\"Hello\"\x7d,\"done\":false\x7d" =
        some ("Hello", false)
    ∧ parse_ollama_stream_line "\x7b\"message\":\x7b\"content\":\" world\"\x7d,\"done\":false\x7d" =
        some (" world", false)
    ∧ parse_ollama_stream_line "\x7b\"done\":true\x7d" = some ("", true)
    ∧ "Hello" ++ " world" ++ "" = "Hello world" := by
  refine ⟨?_, ?_, ?_, by decide, by decide, by decide, by decide⟩
  · intro line h
    simp [parse_ollama_stream_line, h]
  · intro line h
    by_cases hempty : (rustTrim line).data.isEmpty
    · simp [parse_ollama_stream_line, hempty]
    · simp [parse_ollama_stream_line, hempty, h]
  · intro line c h
    by_cases hempty : (rustTrim line).data.isEmpty
    · exfalso
      rw [jsonParse_of_data_nil _ (List.isEmpty_iff.mp hempty)] at h
      simp at h
    · simp only [parse_ollama_stream_line, Bool.not_eq_true] at *
      rw [hempty]
      simp only [Bool.false_eq_true, if_false, h]
      cases hm : c.message <;> simp

/-- Witness for C2 at concrete inputs: a blank line, a non-JSON line,
and a record with a message but no done flag. -/
theorem c2_jsonl_line_parsing_witness :
    parse_ollama_stream_line "  " = none
    ∧ parse_ollama_stream_line "garbage" = none
    ∧ parse_ollama_stream_line "\x7b\"message\":\x7b\"content\":\"Hi\"\x7d\x7d" = some ("Hi", false) :=
  ⟨c2_jsonl_line_parsing.1 "  " (by decide),
   c2_jsonl_line_parsing.2.1 "garbage" (by decide),
   by simpa using (c2_jsonl_line_parsing.2.2.1 "\x7b\"message\":\x7b\"content\":\"Hi\"\x7d\x7d"
     ⟨some ⟨"Hi"⟩, none⟩ (by decide))⟩

/-- Counterexample for C3 as stated: a payload that matches none of
the three shapes because it is not JSON at all yields no output
(`none`), not the `("", false)` record the claim requires. -/
theorem c3_counterexample :
    parse_blackbird_sse_data "not json" = none
    ∧ parse_blackbird_sse_data "not json" ≠ some ("", false) := by
  constructor
  · decide
  · decide

/-- C3 as amended: trimmed-empty payloads yield no output; `[DONE]`
yields `("", true)`; a payload decoding as the top-level
`{choices:[...]}` shape yields the first choice's delta content, else
its message content, else `("", false)`; a payload decoding only as
flat `{content}` yields that content; and a payload decoding as
neither shape — including malformed JSON — yields no output rather
than an error. -/
theorem c3_sse_data_parsing :
    (∀ data : String, (rustTrim data).data.isEmpty = true →
      parse_blackbird_sse_data data = none)
    ∧ (∀ data : String, rustTrim data = "[DONE]" →
      parse_blackbird_sse_data data = some ("", true))
    ∧ (∀ (data : String) (p : BBResponseOpenAIShape),
      (jsonParse (rustTrim data)).bind decodeBBResponseOpenAIShape = some p →
      parse_blackbird_sse_data data =
        some (match p.choices with
          | [] => ("", false)
          | first :: _ =>
            match first.delta.bind OAIDelta.content with
            | some piece => (piece, false)
            | none =>
              match first.message with
              | some msg => (msg.content, false)
              | none => ("", false)))
    ∧ (∀ (data : String) (p : BBResponseContentOnly),
      (jsonParse (rustTrim data)).bind decodeBBResponseOpenAIShape = none →
      (jsonParse (rustTrim data)).bind decodeBBResponseContentOnly = some p →
      parse_blackbird_sse_data data = some (p.content, false))
    ∧ (∀ data : String, (rustTrim data).data.isEmpty = false →
      rustTrim data ≠ "[DONE]" →
      (jsonParse (rustTrim data)).bind decodeBBResponseOpenAIShape = none →
      (jsonParse (rustTrim data)).bind decodeBBResponseContentOnly = none →
      parse_blackbird_sse_data data = none)
    ∧ parse_blackbird_sse_data "  [DONE] " = some ("", true)
    ∧ parse_blackbird_sse_data "\x7b\"choices\":[\x7b\"delta\":\x7b\"content\":\"hi\"\x7d\x7d]\x7d" =
        some ("hi", false)
    ∧ parse_blackbird_sse_data "\x7b\"choices\":[\x7b\"message\":\x7b\"content\":\"msg\"\x7d\x7d]\x7d" =
        some ("msg", false)
    ∧ parse_blackbird_sse_data "\x7b\"content\":\"hi\"\x7d" = some ("hi", false)
    ∧ parse_blackbird_sse_data "" = none
    ∧ parse_blackbird_sse_data "\x7b" = none := by
  refine ⟨?_, ?_, ?_, ?_, ?_, by decide, by decide, by decide, by decide, by decide, by decide⟩
  · intro data h
    simp [parse_blackbird_sse_data, h]
  · intro data h
    have hne : (rustTrim data).data.isEmpty = false := by rw [h]; decide
    simp [parse_blackbird_sse_data, hne, h]
  · intro data p h
    have hne : (rustTrim data).data.isEmpty = false := by
      by_contra hx
      rw [jsonParse_of_data_nil _ (List.isEmpty_iff.mp (by simpa using hx))] at h
      simp at h
    have hdone : (rustTrim data == "[DONE]") = false := by
      by_contra hx
      have heq : rustTrim data = "[DONE]" := by simpa using hx
      rw [heq, show jsonParse "[DONE]" = none from rfl] at h
      simp at h
    simp only [parse_blackbird_sse_data, hne, Bool.false_eq_true, if_false, hdone, h]
    rcases p.choices with _ | ⟨first, rest⟩
    · rfl
    · rcases hd : first.delta.bind OAIDelta.content with _ | piece
      · rcases hm : first.message with _ | msg <;> simp [hd, hm]
      · simp [hd]
  · intro data p h1 h2
    have hne : (rustTrim data).data.isEmpty = false := by
      by_contra hx
      rw [jsonParse_of_data_nil _ (List.isEmpty_iff.mp (by simpa using hx))] at h2
      simp at h2
    have hdone : (rustTrim data == "[DONE]") = false := by
      by_contra hx
      have heq : rustTrim data = "[DONE]" := by simpa using hx
      rw [heq, show jsonParse "[DONE]" = none from rfl] at h2
      simp at h2
    simp only [parse_blackbird_sse_data, hne, Bool.false_eq_true, if_false, hdone, h1, h2]
  · intro data hne hdone h1 h2
    have hdone' : (rustTrim data == "[DONE]") = false := by
      simpa using hdone
    simp only [parse_blackbird_sse_data, hne, Bool.false_eq_true, if_false, hdone', h1, h2]

/-- Witness for C3 at concrete inputs: a whitespace payload, a
whitespace-wrapped `[DONE]`, a delta-shape payload, a flat-content
payload, and an unmatched JSON payload. -/
theorem c3_sse_data_parsing_witness :
    parse_blackbird_sse_data " " = none
    ∧ parse_blackbird_sse_data "\t[DONE]\n" = some ("", true)
    ∧ parse_blackbird_sse_data "\x7b\"choices\":[\x7b\"delta\":\x7b\"content\":\"ok\"\x7d\x7d]\x7d" =
        some ("ok", false)
    ∧ parse_blackbird_sse_data "\x7b\"content\":\"flat\"\x7d" = some ("flat", false)
    ∧ parse_blackbird_sse_data "[1, 2]" = none :=
  ⟨c3_sse_data_parsing.1 " " (by decide),
   c3_sse_data_parsing.2.1 "\t[DONE]\n" (by decide),
   by simpa using (c3_sse_data_parsing.2.2.1 "\x7b\"choices\":[\x7b\"delta\":\x7b\"content\":\"ok\"\x7d\x7d]\x7d"
     ⟨[⟨none, some ⟨some "ok"⟩⟩]⟩ (by decide)),
   by simpa using (c3_sse_data_parsing.2.2.2.1 "\x7b\"content\":\"flat\"\x7d" ⟨"flat"⟩
     (by decide) (by decide)),
   c3_sse_data_parsing.2.2.2.2.1 "[1, 2]" (by decide) (by decide) (by decide) (by decide)⟩

/-- C1: the backend selector resolves in fixed first-match order —
direct-HTTP endpoint, then the local-model opt-in flag, then the
hosted-service endpoint — and with none configured it returns a
configuration error whose message names all three options
(`LLM_ENDPOINT`, `LLM_USE_OLLAMA`, `BLACKBIRD_ENDPOINT`); `chat_reply`
propagates a selection error untouched. -/
theorem c1_backend_selector_first_match :
    (∀ (env : Env) (ep : String), env.llmEndpoint = some ep →
      select_backend env = .ok (.custom ep))
    ∧ (∀ env : Env, env.llmEndpoint = none → ollamaOptIn env = true →
      select_backend env =
        .ok (.ollama (env.llmModel.getD OLLAMA_DEFAULT_MODEL) OLLAMA_DEFAULT_ENDPOINT))
    ∧ (∀ (env : Env) (ep : String), env.llmEndpoint = none → ollamaOptIn env = false →
      env.blackbirdEndpoint = some ep →
      select_backend env =
        .ok (.blackbird ep (env.blackbirdTier.getD BLACKBIRD_DEFAULT_TIER)
          (env.blackbirdModel.getD BLACKBIRD_DEFAULT_MODEL) env.blackbirdApiKey))
    ∧ (∀ env : Env, env.llmEndpoint = none → ollamaOptIn env = false →
      env.blackbirdEndpoint = none →
      select_backend env = .error (ChatError.new NO_LLM_CONFIGURED_MSG))
    ∧ strContains NO_LLM_CONFIGURED_MSG "LLM_ENDPOINT"
    ∧ strContains NO_LLM_CONFIGURED_MSG "LLM_USE_OLLAMA"
    ∧ strContains NO_LLM_CONFIGURED_MSG "BLACKBIRD_ENDPOINT"
    ∧ (∀ (env : Env) (complete : Backend → List ChatMessage → Except ChatError String)
        (messages : List ChatMessage) (e : ChatError),
      select_backend env = .error e →
      chat_reply env complete messages = .error e) := by
  refine ⟨?_, ?_, ?_, ?_, ?_, ?_, ?_, ?_⟩
  · intro env ep h
    simp [select_backend, h]
  · intro env h hflag
    simp [select_backend, h, hflag]
  · intro env ep h hflag hb
    simp [select_backend, h, hflag, hb]
  · intro env h hflag hb
    simp [select_backend, h, hflag, hb]
  · exact ⟨"No LLM configured. Set ",
      " for a custom backend, BLACKBIRD_ENDPOINT for Blackbird, or LLM_USE_OLLAMA=true for local Ollama.",
      by decide⟩
  · exact ⟨"No LLM configured. Set LLM_ENDPOINT for a custom backend, BLACKBIRD_ENDPOINT for Blackbird, or ",
      "=true for local Ollama.", by decide⟩
  · exact ⟨"No LLM configured. Set LLM_ENDPOINT for a custom backend, ",
      " for Blackbird, or LLM_USE_OLLAMA=true for local Ollama.", by decide⟩
  · intro env complete messages e h
    simp [chat_reply, h]

/-- Witness for C1 at concrete environments: each of the four
resolution outcomes, and error propagation through `chat_reply` in the
unconfigured environment. -/
theorem c1_backend_selector_first_match_witness :
    select_backend ⟨some "http://e", some "true", none, some "http://b", none, none, none⟩ =
      .ok (.custom "http://e")
    ∧ select_backend ⟨none, some "TRUE", none, some "http://b", none, none, none⟩ =
      .ok (.ollama OLLAMA_DEFAULT_MODEL OLLAMA_DEFAULT_ENDPOINT)
    ∧ select_backend ⟨none, some "no", none, some "http://b", some "t", some "m", some "k"⟩ =
      .ok (.blackbird "http://b" "t" "m" (some "k"))
    ∧ select_backend ⟨none, none, none, none, none, none, none⟩ =
      .error (ChatError.new NO_LLM_CONFIGURED_MSG)
    ∧ chat_reply ⟨none, none, none, none, none, none, none⟩ (fun _ _ => .ok "reply") [] =
      .error (ChatError.new NO_LLM_CONFIGURED_MSG) :=
  ⟨c1_backend_selector_first_match.1 _ "http://e" rfl,
   by simpa using (c1_backend_selector_first_match.2.1
     ⟨none, some "TRUE", none, some "http://b", none, none, none⟩ rfl (by decide)),
   by simpa using (c1_backend_selector_first_match.2.2.1
     ⟨none, some "no", none, some "http://b", some "t", some "m", some "k"⟩ "http://b"
     rfl (by decide) rfl),
   c1_backend_selector_first_match.2.2.2.1 _ rfl (by decide) rfl,
   c1_backend_selector_first_match.2.2.2.2.2.2.2 _ _ []
     (ChatError.new NO_LLM_CONFIGURED_MSG)
     (c1_backend_selector_first_match.2.2.2.1 _ rfl (by decide) rfl)⟩

/-- C8: on a 2xx response the Direct-HTTP `complete` returns the
parsed `{content}` field, falling back to the raw body verbatim as a
success when the body does not parse as that shape; on a non-2xx
response it fails with an error carrying the status and the body — at
status 400 with body "bad request" the error message contains both
"400" and "bad request". -/
theorem c8_custom_complete_contract :
    (∀ (resp : HttpResponse) (c : ChatResponse), statusIsSuccess resp.status = true →
      (jsonParse resp.body).bind decodeChatResponse = some c →
      custom_complete resp = .ok c.content)
    ∧ (∀ resp : HttpResponse, statusIsSuccess resp.status = true →
      (jsonParse resp.body).bind decodeChatResponse = none →
      custom_complete resp = .ok resp.body)
    ∧ (∀ resp : HttpResponse, statusIsSuccess resp.status = false →
      custom_complete resp =
        .error (ChatError.new
          ("LLM endpoint error " ++ statusDisplay resp.status ++ ": " ++ resp.body)))
    ∧ custom_complete ⟨400, "bad request"⟩ =
        .error (ChatError.new "LLM endpoint error 400: bad request")
    ∧ strContains "LLM endpoint error 400: bad request" "400"
    ∧ strContains "LLM endpoint error 400: bad request" "bad request" := by
  refine ⟨?_, ?_, ?_, by decide, ?_, ?_⟩
  · intro resp c hs h
    simp [custom_complete, hs, h]
  · intro resp hs h
    simp [custom_complete, hs, h]
  · intro resp hs
    simp [custom_complete, hs]
  · exact ⟨"LLM endpoint error ", ": bad request", by decide⟩
  · exact ⟨"LLM endpoint error 400: ", "", by decide⟩

/-- Witness for C8 at concrete responses: a parsing 2xx body, a
non-parsing 2xx body returned verbatim, and a 500 failure. -/
theorem c8_custom_complete_contract_witness :
    custom_complete ⟨200, "\x7b\"content\":\"hi\"\x7d"⟩ = .ok "hi"
    ∧ custom_complete ⟨204, "plain text"⟩ = .ok "plain text"
    ∧ custom_complete ⟨500, "boom"⟩ =
        .error (ChatError.new ("LLM endpoint error " ++ statusDisplay 500 ++ ": " ++ "boom")) :=
  ⟨by simpa using (c8_custom_complete_contract.1 ⟨200, "\x7b\"content\":\"hi\"\x7d"⟩ ⟨"hi"⟩
     (by decide) (by decide)),
   c8_custom_complete_contract.2.1 ⟨204, "plain text"⟩ (by decide) (by decide),
   c8_custom_complete_contract.2.2.1 ⟨500, "boom"⟩ (by decide)⟩

theorem updateEntry_none (m : Nat → Option StreamEntry) (id : Nat)
    (f : StreamEntry → StreamEntry) (h : m id = none) : updateEntry m id f = m := by
  funext k
  unfold updateEntry
  by_cases hk : k = id
  · subst hk
    simp [h]
  · simp [hk]

/-- C10: every mutating registry operation on an id with no entry is a
silent no-op leaving the whole store unchanged, and only `snapshot`
(through `chat_reply_stream_poll`) reports the unknown id as an
explicit error. -/
theorem c10_unknown_id_mutators_noop :
    ∀ (s : StreamStore) (id : Nat) (chunk content message : String),
      s.entries id = none →
      s.append id chunk = s
      ∧ s.replace id content = s
      ∧ s.finish id = s
      ∧ s.fail id message = s
      ∧ chat_reply_stream_poll s id = .error (ChatError.new "invalid stream id") := by
  intro s id chunk content message h
  obtain ⟨c, ent⟩ := s
  refine ⟨?_, ?_, ?_, ?_, ?_⟩
  · simp only [StreamStore.append]
    rw [updateEntry_none _ _ _ h]
  · simp only [StreamStore.replace]
    rw [updateEntry_none _ _ _ h]
  · simp only [StreamStore.finish]
    rw [updateEntry_none _ _ _ h]
  · simp only [StreamStore.fail]
    rw [updateEntry_none _ _ _ h]
  · simp only [chat_reply_stream_poll, StreamStore.snapshot] at *
    rw [h]

/-- Witness for C10 on the freshly initialized store at id 7. -/
theorem c10_unknown_id_mutators_noop_witness :
    StreamStore.init.append 7 "x" = StreamStore.init
    ∧ StreamStore.init.replace 7 "y" = StreamStore.init
    ∧ StreamStore.init.finish 7 = StreamStore.init
    ∧ StreamStore.init.fail 7 "z" = StreamStore.init
    ∧ chat_reply_stream_poll StreamStore.init 7 =
        .error (ChatError.new "invalid stream id") :=
  c10_unknown_id_mutators_noop StreamStore.init 7 "x" "y" "z" rfl

/-- C9: a backend without native streaming implements `stream` as one
`complete` call delivered as a single delta: when `complete` succeeds
with text `T` the stream call succeeds and, after the gateway task
finalizes, the entry's snapshot is exactly `(T, true)`; when `complete`
fails, `stream` returns the very same error and leaves the store
untouched. -/
theorem c9_nonstreaming_stream_contract :
    (∀ (s : StreamStore) (id : Nat) (text : String) (e : StreamEntry),
      s.entries id = some e →
      (default_stream (.ok text) id s).1 = .ok ()
      ∧ (stream_task_finalize id (default_stream (.ok text) id s).1
          (default_stream (.ok text) id s).2).snapshot id = .ok (text, true))
    ∧ (∀ (s : StreamStore) (id : Nat) (err : ChatError),
      default_stream (.error err) id s = (.error err, s)) := by
  constructor
  · intro s id text e h
    refine ⟨rfl, ?_⟩
    simp [default_stream, stream_task_finalize, StreamStore.finish, StreamStore.replace,
      StreamStore.snapshot, updateEntry, h]
  · intro s id err
    rfl

/-- Witness for C9: a one-entry store, a successful completion "full
answer", and a failing completion. -/
theorem c9_nonstreaming_stream_contract_witness :
    (default_stream (.ok "full answer") 1 StreamStore.init.create_handle.1).1 = .ok ()
    ∧ (stream_task_finalize 1 (default_stream (.ok "full answer") 1 StreamStore.init.create_handle.1).1
        (default_stream (.ok "full answer") 1 StreamStore.init.create_handle.1).2).snapshot 1 =
        .ok ("full answer", true)
    ∧ default_stream (.error (ChatError.new "boom")) 1 StreamStore.init.create_handle.1 =
        (.error (ChatError.new "boom"), StreamStore.init.create_handle.1) :=
  ⟨(c9_nonstreaming_stream_contract.1 _ 1 "full answer" StreamEntry.init rfl).1,
   (c9_nonstreaming_stream_contract.1 _ 1 "full answer" StreamEntry.init rfl).2,
   c9_nonstreaming_stream_contract.2 _ 1 (ChatError.new "boom")⟩

/-- C6: a backend-selection error makes `chat_reply_stream_start`
return that error synchronously with the store unchanged and no task
spawned; and when the backend's `stream` call inside the task returns
an error, the task turns the entry into a terminal failed one — the
buffer replaced by a diagnostic message containing the error text and
`done` set to true. -/
theorem c6_stream_start_error_handling :
    (∀ (env : Env) (s : StreamStore) (e : ChatError),
      select_backend env = .error e →
      chat_reply_stream_start env s = (.error e, s, none))
    ∧ (∀ (s : StreamStore) (id : Nat) (err : ChatError) (e : StreamEntry),
      s.entries id = some e →
      (stream_task_finalize id (.error err) s).snapshot id =
        .ok ("error: " ++ err.message, true)
      ∧ strContains ("error: " ++ err.message) err.message) := by
  constructor
  · intro env s e h
    simp [chat_reply_stream_start, h]
  · intro s id err e h
    constructor
    · simp [stream_task_finalize, handle_fail, StreamStore.fail, StreamStore.snapshot,
        updateEntry, h]
    · exact ⟨"error: ", "", by simp⟩

/-- Witness for C6: the unconfigured environment on the initialized
store, and a failing task over a one-entry store. -/
theorem c6_stream_start_error_handling_witness :
    chat_reply_stream_start ⟨none, none, none, none, none, none, none⟩ StreamStore.init =
      (.error (ChatError.new NO_LLM_CONFIGURED_MSG), StreamStore.init, none)
    ∧ (stream_task_finalize 1 (.error (ChatError.new "connection refused"))
        StreamStore.init.create_handle.1).snapshot 1 =
      .ok ("error: connection refused", true) :=
  ⟨c6_stream_start_error_handling.1 _ StreamStore.init (ChatError.new NO_LLM_CONFIGURED_MSG) rfl,
   ((c6_stream_start_error_handling.2 StreamStore.init.create_handle.1 1
     (ChatError.new "connection refused") StreamEntry.init rfl).1)⟩

theorem updateEntry_isSome (m : Nat → Option StreamEntry) (id k : Nat)
    (f : StreamEntry → StreamEntry) :
    ((updateEntry m id f) k).isSome = (m k).isSome := by
  unfold updateEntry
  by_cases hk : k = id
  · simp [hk]
  · simp [hk]

theorem entries_isSome_iff (ops : List Op) : ∀ (s : StreamStore) (id : Nat),
    ((runOps s ops).entries id).isSome = true ↔
      ((s.entries id).isSome = true ∨ id ∈ issuedIds s ops) := by
  induction ops with
  | nil =>
    intro s id
    simp [runOps, issuedIds]
  | cons op rest ih =>
    intro s id
    cases op with
    | create =>
      show ((runOps (applyOp s .create) rest).entries id).isSome = true ↔ _
      rw [ih]
      have hiss : issuedIds s (Op.create :: rest) =
          s.counter :: issuedIds (applyOp s .create) rest := rfl
      rw [hiss]
      have hent : ((applyOp s Op.create).entries id).isSome = true ↔
          (id = s.counter ∨ (s.entries id).isSome = true) := by
        by_cases hc : id = s.counter
        · simp [applyOp, StreamStore.create_handle, hc]
        · simp [applyOp, StreamStore.create_handle, hc]
      rw [hent, List.mem_cons]
      tauto
    | append i c =>
      show ((runOps (applyOp s (.append i c)) rest).entries id).isSome = true ↔ _
      rw [ih]
      simp only [applyOp, StreamStore.append, updateEntry_isSome]
      rfl
    | replace i c =>
      show ((runOps (applyOp s (.replace i c)) rest).entries id).isSome = true ↔ _
      rw [ih]
      simp only [applyOp, StreamStore.replace, updateEntry_isSome]
      rfl
    | finish i =>
      show ((runOps (applyOp s (.finish i)) rest).entries id).isSome = true ↔ _
      rw [ih]
      simp only [applyOp, StreamStore.finish, updateEntry_isSome]
      rfl
    | fail i m =>
      show ((runOps (applyOp s (.fail i m)) rest).entries id).isSome = true ↔ _
      rw [ih]
      simp only [applyOp, StreamStore.fail, updateEntry_isSome]
      rfl

/-- C5: polling an id never issued by any `create` in the run reports
the explicit "invalid stream id" error, and polling an issued id always
returns a `(text, done)` snapshot — entries are never deleted, so an
issued id is never reported as not found. -/
theorem c5_poll_issued_ids :
    ∀ (ops : List Op) (id : Nat),
      (id ∉ issuedIds StreamStore.init ops →
        chat_reply_stream_poll (runOps StreamStore.init ops) id =
          .error (ChatError.new "invalid stream id"))
      ∧ (id ∈ issuedIds StreamStore.init ops →
        ∃ text dn, chat_reply_stream_poll (runOps StreamStore.init ops) id =
          .ok (text, dn)) := by
  intro ops id
  have hiff := entries_isSome_iff ops StreamStore.init id
  rw [show (StreamStore.init.entries id).isSome = false from rfl] at hiff
  simp only [Bool.false_eq_true, false_or] at hiff
  constructor
  · intro hnot
    rcases hrun : (runOps StreamStore.init ops).entries id with _ | e
    · simp [chat_reply_stream_poll, StreamStore.snapshot, hrun]
    · exact absurd (hiff.mp (by simp [hrun])) hnot
  · intro hmem
    obtain ⟨e, he⟩ := Option.isSome_iff_exists.mp (hiff.mpr hmem)
    exact ⟨e.buffer, e.done, by simp [chat_reply_stream_poll, StreamStore.snapshot, he]⟩

/-- Witness for C5: after one create on the fresh store, id 5 was
never issued and polls as the explicit error, while the issued id 1
polls as a snapshot. -/
theorem c5_poll_issued_ids_witness :
    chat_reply_stream_poll (runOps StreamStore.init [Op.create]) 5 =
      .error (ChatError.new "invalid stream id")
    ∧ ∃ text dn,
      chat_reply_stream_poll (runOps StreamStore.init [Op.create]) 1 = .ok (text, dn) :=
  ⟨(c5_poll_issued_ids [Op.create] 5).1 (by decide),
   (c5_poll_issued_ids [Op.create] 1).2 (by decide)⟩

theorem U64_MOD_pos : 0 < U64_MOD := by norm_num [U64_MOD]

theorem U64_MOD_val : U64_MOD = 18446744073709551616 := by norm_num [U64_MOD]

/-- Ids handed out by `n` consecutive `create_handle` calls: the
wrapping counter walks `counter, counter + 1, …` modulo `2 ^ 64`. -/
theorem issuedIds_replicate_create (n : Nat) : ∀ s : StreamStore, s.counter < U64_MOD →
    issuedIds s (List.replicate n Op.create) =
      (List.range n).map (fun k => (s.counter + k) % U64_MOD) := by
  induction n with
  | zero =>
    intro s _
    simp [issuedIds]
  | succ m ih =>
    intro s h
    rw [List.replicate_succ]
    show s.counter :: issuedIds (applyOp s Op.create) (List.replicate m Op.create) = _
    have hc' : (applyOp s Op.create).counter = (s.counter + 1) % U64_MOD := rfl
    rw [ih (applyOp s Op.create) (by rw [hc']; exact Nat.mod_lt _ U64_MOD_pos), hc']
    rw [List.range_succ_eq_map]
    simp only [List.map_cons, List.map_map]
    congr 1
    · rw [Nat.add_zero, Nat.mod_eq_of_lt h]
    · have : (fun k => ((s.counter + 1) % U64_MOD + k) % U64_MOD) =
          (fun k => (s.counter + k) % U64_MOD) ∘ Nat.succ := by
        funext k
        have harg : s.counter + 1 + k = s.counter + k.succ := by omega
        simp only [Function.comp, Nat.mod_add_mod, harg]
      rw [this]

theorem createIds_eq (n : Nat) :
    createIds n = (List.range n).map (fun k => (1 + k) % U64_MOD) :=
  issuedIds_replicate_create n StreamStore.init (by norm_num [StreamStore.init, U64_MOD])

/-- C4 as amended: while fewer than `2 ^ 64` identifiers have been
issued, the ids returned by consecutive `create_handle` calls on the
fresh store are strictly increasing in call order and pairwise
distinct (never reused); the wrapping 64-bit counter repeats ids
beyond that bound. -/
theorem c4_stream_ids_strictly_increasing :
    ∀ n : Nat, n ≤ U64_MOD - 1 →
      (createIds n).Pairwise (· < ·) ∧ (createIds n).Nodup := by
  intro n hn
  have hmap : createIds n = (List.range n).map (fun k => 1 + k) := by
    rw [createIds_eq]
    apply List.map_congr_left
    intro k hk
    have hk' : k < n := List.mem_range.mp hk
    have hM := U64_MOD_val
    exact Nat.mod_eq_of_lt (by omega)
  have hpw : (createIds n).Pairwise (· < ·) := by
    rw [hmap]
    exact List.pairwise_map.mpr ((List.pairwise_lt_range n).imp (by omega))
  exact ⟨hpw, hpw.imp Nat.ne_of_lt⟩

/-- Witness for C4 at three calls. -/
theorem c4_stream_ids_strictly_increasing_witness :
    (createIds 3).Pairwise (· < ·) ∧ (createIds 3).Nodup :=
  c4_stream_ids_strictly_increasing 3 (by norm_num [U64_MOD])

/-- Counterexample for C4 as stated for unbounded call counts: after
`2 ^ 64 + 1` create calls the wrapping u64 counter has reused id 1 —
the first and the last call return the same id, so the sequence is
neither pairwise distinct nor strictly increasing. -/
theorem c4_counterexample :
    (createIds (U64_MOD + 1))[0]? = some 1
    ∧ (createIds (U64_MOD + 1))[U64_MOD]? = some 1
    ∧ ¬ (createIds (U64_MOD + 1)).Nodup := by
  have hM := U64_MOD_val
  have h0 : (createIds (U64_MOD + 1))[0]? = some 1 := by
    rw [createIds_eq, List.getElem?_map, List.getElem?_range (by omega)]
    simp only [Option.map_some']
    congr 1
  have h1 : (createIds (U64_MOD + 1))[U64_MOD]? = some 1 := by
    rw [createIds_eq, List.getElem?_map, List.getElem?_range (by omega)]
    simp only [Option.map_some']
    congr 1
  refine ⟨h0, h1, fun hnd => ?_⟩
  have hlen : 0 < (createIds (U64_MOD + 1)).length := by
    rw [createIds_eq, List.length_map, List.length_range]
    omega
  have := List.getElem?_inj hlen hnd (h0.trans h1.symm)
  omega

/-- One legal lifecycle operation keeps the phase assignment in sync
with the store. -/
theorem phasesAgree_step (ph : Nat → Phase) (s : StreamStore) (op : Op)
    (hok : opPhaseOk ph s op) (hA : PhasesAgree ph s) :
    PhasesAgree (phaseAfter ph s op) (applyOp s op) := by
  intro id
  cases op with
  | create =>
    by_cases hid : id = s.counter
    · subst hid
      refine ⟨?_, ?_, ?_⟩
      · intro hph
        simp [phaseAfter] at hph
      · intro _
        exact ⟨StreamEntry.init, by simp [applyOp, StreamStore.create_handle], rfl⟩
      · intro hph
        simp [phaseAfter] at hph
    · have hphEq : (phaseAfter ph s Op.create) id = ph id := by
        simp [phaseAfter, hid]
      have hentEq : (applyOp s Op.create).entries id = s.entries id := by
        simp [applyOp, StreamStore.create_handle, hid]
      rw [hphEq, hentEq]
      exact hA id
  | append i c =>
    by_cases hid : id = i
    · subst hid
      refine ⟨?_, ?_, ?_⟩
      · intro hph
        rw [show phaseAfter ph s (Op.append id c) = ph from rfl] at hph
        rw [hok] at hph
        cases hph
      · intro _
        obtain ⟨e, he, hd⟩ := (hA id).2.1 hok
        exact ⟨⟨e.buffer ++ c, e.done⟩,
          by simp [applyOp, StreamStore.append, updateEntry, he], hd⟩
      · intro hph
        rw [show phaseAfter ph s (Op.append id c) = ph from rfl] at hph
        rw [hok] at hph
        cases hph
    · have hentEq : (applyOp s (Op.append i c)).entries id = s.entries id := by
        simp [applyOp, StreamStore.append, updateEntry, hid]
      rw [show phaseAfter ph s (Op.append i c) = ph from rfl, hentEq]
      exact hA id
  | replace i c =>
    by_cases hid : id = i
    · subst hid
      refine ⟨?_, ?_, ?_⟩
      · intro hph
        rw [show phaseAfter ph s (Op.replace id c) = ph from rfl] at hph
        rw [hok] at hph
        cases hph
      · intro _
        obtain ⟨e, he, hd⟩ := (hA id).2.1 hok
        exact ⟨⟨c, e.done⟩,
          by simp [applyOp, StreamStore.replace, updateEntry, he], hd⟩
      · intro hph
        rw [show phaseAfter ph s (Op.replace id c) = ph from rfl] at hph
        rw [hok] at hph
        cases hph
    · have hentEq : (applyOp s (Op.replace i c)).entries id = s.entries id := by
        simp [applyOp, StreamStore.replace, updateEntry, hid]
      rw [show phaseAfter ph s (Op.replace i c) = ph from rfl, hentEq]
      exact hA id
  | finish i =>
    by_cases hid : id = i
    · subst hid
      obtain ⟨e, he, _⟩ := (hA id).2.1 hok
      refine ⟨?_, ?_, ?_⟩
      · intro hph
        simp [phaseAfter] at hph
      · intro hph
        simp [phaseAfter] at hph
      · intro _
        exact ⟨⟨e.buffer, true⟩,
          by simp [applyOp, StreamStore.finish, updateEntry, he], rfl⟩
    · have hphEq : (phaseAfter ph s (Op.finish i)) id = ph id := by
        simp [phaseAfter, hid]
      have hentEq : (applyOp s (Op.finish i)).entries id = s.entries id := by
        simp [applyOp, StreamStore.finish, updateEntry, hid]
      rw [hphEq, hentEq]
      exact hA id
  | fail i msg =>
    by_cases hid : id = i
    · subst hid
      obtain ⟨e, he, _⟩ := (hA id).2.1 hok
      refine ⟨?_, ?_, ?_⟩
      · intro hph
        simp [phaseAfter] at hph
      · intro hph
        simp [phaseAfter] at hph
      · intro _
        exact ⟨⟨msg, true⟩,
          by simp [applyOp, StreamStore.fail, updateEntry, he], rfl⟩
    · have hphEq : (phaseAfter ph s (Op.fail i msg)) id = ph id := by
        simp [phaseAfter, hid]
      have hentEq : (applyOp s (Op.fail i msg)).entries id = s.entries id := by
        simp [applyOp, StreamStore.fail, updateEntry, hid]
      rw [hphEq, hentEq]
      exact hA id

/-- Along any lifecycle-reachable operation sequence, the entry of an
id that is already terminal is left completely untouched. -/
theorem runOps_preserves_terminal (ops : List Op) :
    ∀ (ph : Nat → Phase) (s : StreamStore), GatewayTrace ph s ops → PhasesAgree ph s →
      ∀ id, ph id = .terminal → (runOps s ops).entries id = s.entries id := by
  induction ops with
  | nil =>
    intro ph s _ _ id _
    rfl
  | cons op rest ih =>
    intro ph s htr hA id hterm
    obtain ⟨hok, htr'⟩ := htr
    have hA' := phasesAgree_step ph s op hok hA
    have hstep : (applyOp s op).entries id = s.entries id := by
      cases op with
      | create =>
        have hne : id ≠ s.counter := by
          intro h
          rw [h, hok] at hterm
          cases hterm
        simp [applyOp, StreamStore.create_handle, hne]
      | append i c =>
        have hne : id ≠ i := by
          intro h
          rw [h, hok] at hterm
          cases hterm
        simp [applyOp, StreamStore.append, updateEntry, hne]
      | replace i c =>
        have hne : id ≠ i := by
          intro h
          rw [h, hok] at hterm
          cases hterm
        simp [applyOp, StreamStore.replace, updateEntry, hne]
      | finish i =>
        have hne : id ≠ i := by
          intro h
          rw [h, hok] at hterm
          cases hterm
        simp [applyOp, StreamStore.finish, updateEntry, hne]
      | fail i msg =>
        have hne : id ≠ i := by
          intro h
          rw [h, hok] at hterm
          cases hterm
        simp [applyOp, StreamStore.fail, updateEntry, hne]
    have hterm' : (phaseAfter ph s op) id = .terminal := by
      cases op with
      | create =>
        have hne : id ≠ s.counter := by
          intro h
          rw [h, hok] at hterm
          cases hterm
        simpa [phaseAfter, hne] using hterm
      | append i c => exact hterm
      | replace i c => exact hterm
      | finish i =>
        by_cases hid : id = i
        · rw [hid, hok] at hterm
          cases hterm
        · simpa [phaseAfter, hid] using hterm
      | fail i msg =>
        by_cases hid : id = i
        · rw [hid, hok] at hterm
          cases hterm
        · simpa [phaseAfter, hid] using hterm
    show (runOps (applyOp s op) rest).entries id = s.entries id
    rw [ih (phaseAfter ph s op) (applyOp s op) htr' hA' id hterm', hstep]

/-- C7: in every operation sequence reachable through the gateway's
stream lifecycle (no transition leaves a terminal state), an entry
whose `done` flag is true stays exactly as it is — `done` never
reverts to false and the buffer is never modified again, so its
snapshot is stable. -/
theorem c7_terminal_entry_monotonic :
    ∀ (ph : Nat → Phase) (s : StreamStore) (ops : List Op) (id : Nat) (e : StreamEntry),
      GatewayTrace ph s ops → PhasesAgree ph s →
      s.entries id = some e → e.done = true →
      (runOps s ops).entries id = some e
      ∧ (runOps s ops).snapshot id = .ok (e.buffer, true) := by
  intro ph s ops id e htr hA he hdone
  have hterm : ph id = .terminal := by
    cases hph : ph id with
    | idle =>
      have := (hA id).1 hph
      rw [he] at this
      cases this
    | active =>
      obtain ⟨e', he', hd'⟩ := (hA id).2.1 hph
      rw [he] at he'
      injection he' with h'
      rw [← h', hdone] at hd'
      cases hd'
    | terminal => rfl
  have hfrozen := runOps_preserves_terminal ops ph s htr hA id hterm
  rw [hfrozen, he]
  exact ⟨rfl, by simp [StreamStore.snapshot, hfrozen, he, hdone]⟩

/-- Witness for C7: a store whose entry 1 is already done with buffer
"hi" survives a further lifecycle (create id 2, append to it, finish
it) completely unchanged. -/
theorem c7_terminal_entry_monotonic_witness :
    (runOps ⟨2, fun k => if k = 1 then some ⟨"hi", true⟩ else none⟩
      [Op.create, Op.append 2 "x", Op.finish 2]).entries 1 = some ⟨"hi", true⟩
    ∧ (runOps ⟨2, fun k => if k = 1 then some ⟨"hi", true⟩ else none⟩
      [Op.create, Op.append 2 "x", Op.finish 2]).snapshot 1 = .ok ("hi", true) :=
  c7_terminal_entry_monotonic
    (fun k => if k = 1 then Phase.terminal else Phase.idle)
    ⟨2, fun k => if k = 1 then some ⟨"hi", true⟩ else none⟩
    [Op.create, Op.append 2 "x", Op.finish 2] 1 ⟨"hi", true⟩
    ⟨rfl, rfl, rfl, trivial⟩
    (by
      intro id
      by_cases h : id = 1
      · refine ⟨fun hph => ?_, fun hph => ?_, fun _ => ⟨⟨"hi", true⟩, by simp [h], rfl⟩⟩
        · simp [h] at hph
        · simp [h] at hph
      · refine ⟨fun _ => by simp [h], fun hph => ?_, fun hph => ?_⟩
        · simp [h] at hph
        · simp [h] at hph)
    rfl rfl
